import Mathlib

/-!
Verification development for the Tumor-Segmentation repository.

The reviewed sources are two notebooks: a classification label-distribution
reporting notebook and a segmentation dataloader example.  The library modules
they import (`src/enums.py`, `src/data/classification.py`,
`src/data/segmentation.py`, `src/utils/transforms.py`) are not among the
reviewed sources, so those components are modelled from the specification
(sections 2-4 of the design document); each such definition carries a doc
comment saying so.  The notebook code itself (label counting, table assembly,
percentage formatting, split filtering) is embedded directly from the
notebook sources.
-/

/-- Lexicographic comparison of character lists by code point, the ordering
Python uses for strings (and hence for sorted directory listings). -/
def charListLe : List Char → List Char → Bool
  | [], _ => true
  | _ :: _, [] => false
  | a :: as, b :: bs =>
    if a.toNat < b.toNat then true
    else if b.toNat < a.toNat then false
    else charListLe as bs

/-- Lexicographic order on strings by code point. -/
def strLe (a b : String) : Prop := charListLe a.data b.data = true

instance : DecidableRel strLe := fun a b =>
  inferInstanceAs (Decidable (charListLe a.data b.data = true))

theorem charListLe_cons (a b : Char) (as bs : List Char) :
    charListLe (a :: as) (b :: bs) = true ↔
      a.toNat < b.toNat ∨ (a.toNat = b.toNat ∧ charListLe as bs = true) := by
  rcases Nat.lt_trichotomy a.toNat b.toNat with h | h | h
  · simp [charListLe, h]
  · simp [charListLe, h, Nat.lt_irrefl]
  · simp only [charListLe, if_neg (by omega : ¬ a.toNat < b.toNat), if_pos h]
    constructor
    · intro hf; exact absurd hf (by simp)
    · rintro (hlt | ⟨he, -⟩) <;> omega

theorem charListLe_total :
    ∀ a b : List Char, charListLe a b = true ∨ charListLe b a = true
  | [], _ => Or.inl rfl
  | _ :: _, [] => Or.inr rfl
  | a :: as, b :: bs => by
    rcases Nat.lt_trichotomy a.toNat b.toNat with h | h | h
    · exact Or.inl ((charListLe_cons a b as bs).2 (Or.inl h))
    · rcases charListLe_total as bs with ih | ih
      · exact Or.inl ((charListLe_cons a b as bs).2 (Or.inr ⟨h, ih⟩))
      · exact Or.inr ((charListLe_cons b a bs as).2 (Or.inr ⟨h.symm, ih⟩))
    · exact Or.inr ((charListLe_cons b a bs as).2 (Or.inl h))

theorem charListLe_trans :
    ∀ a b c : List Char, charListLe a b = true → charListLe b c = true →
      charListLe a c = true
  | [], _, _, _, _ => rfl
  | _ :: _, [], _, h, _ => by simp [charListLe] at h
  | _ :: _, _ :: _, [], _, h2 => by simp [charListLe] at h2
  | a :: as, b :: bs, c :: cs, h1, h2 => by
    rcases (charListLe_cons a b as bs).1 h1 with hab | ⟨hab, t1⟩ <;>
      rcases (charListLe_cons b c bs cs).1 h2 with hbc | ⟨hbc, t2⟩
    · exact (charListLe_cons a c as cs).2 (Or.inl (by omega))
    · exact (charListLe_cons a c as cs).2 (Or.inl (by omega))
    · exact (charListLe_cons a c as cs).2 (Or.inl (by omega))
    · exact (charListLe_cons a c as cs).2
        (Or.inr ⟨by omega, charListLe_trans as bs cs t1 t2⟩)

instance : IsTotal String strLe := ⟨fun a b => charListLe_total a.data b.data⟩

instance : IsTrans String strLe := ⟨fun a b c => charListLe_trans a.data b.data c.data⟩

/-- Modelled from the spec: the `DataSplit` enum from `src/enums.py` (not among
the reviewed sources).  The spec lists the members TRAIN, VALIDATION, TEST as a
fixed enumerated set. -/
inductive DataSplit where
  | TRAIN
  | VALIDATION
  | TEST
deriving DecidableEq, Repr

/-- The `.name` attribute of an enum member, as used by the notebook in
`[split.name for split in DataSplit if split != DataSplit.VALIDATION]`. -/
def DataSplit.name : DataSplit → String
  | .TRAIN => "TRAIN"
  | .VALIDATION => "VALIDATION"
  | .TEST => "TEST"

/-- Iteration order of `for split in DataSplit`: enum members in declaration
order. -/
def DataSplit.all : List DataSplit := [.TRAIN, .VALIDATION, .TEST]

/-- Modelled from the spec: the `LabelIndex` component (section 4.2), realised
in `src/data/classification.py` which is not among the reviewed sources.
Class names are derived from the directory structure and assigned integer ids
in stable sorted class-name order; `classes` is the sorted duplicate-free list
of class names, and the id of a class is its position in this list. -/
structure LabelIndex where
  classes : List String
deriving DecidableEq, Repr

/-- Build the label index from the raw class names discovered in the split
directory: deduplicate and sort, per the spec's stable deterministic id
assignment (sorted class-name order). -/
def LabelIndex.ofClassNames (raw : List String) : LabelIndex :=
  ⟨List.insertionSort strLe raw.dedup⟩

/-- Class-name to integer-id lookup; an unknown name fails (spec:
`UnknownLabelError`), modelled as `none`. -/
def LabelIndex.class_to_idx (L : LabelIndex) (c : String) : Option Nat :=
  if c ∈ L.classes then some (L.classes.indexOf c) else none

/-- Integer-id to class-name lookup; an out-of-range id fails (spec:
`UnknownLabelError`), modelled as `none`. -/
def LabelIndex.idx_to_class (L : LabelIndex) (i : Nat) : Option String :=
  L.classes.get? i

theorem LabelIndex.classes_nodup (raw : List String) :
    (LabelIndex.ofClassNames raw).classes.Nodup :=
  ((List.perm_insertionSort _ raw.dedup).symm).nodup (raw.nodup_dedup)

/-- Claim C1: for every class name registered in a `LabelIndex`, looking the
name up in `class_to_idx` and the resulting id up in `idx_to_class` returns
the name again, and conversely every id in use maps back to its unique name:
the name-to-id mapping is a bijection between registered names and ids in
use. -/
theorem labelIndex_roundTrip_bijection (raw : List String) :
    (∀ c, c ∈ (LabelIndex.ofClassNames raw).classes →
      ∃ i, (LabelIndex.ofClassNames raw).class_to_idx c = some i ∧
        (LabelIndex.ofClassNames raw).idx_to_class i = some c) ∧
    (∀ i c, (LabelIndex.ofClassNames raw).idx_to_class i = some c →
      (LabelIndex.ofClassNames raw).class_to_idx c = some i) := by
  constructor
  · intro c hc
    refine ⟨(LabelIndex.ofClassNames raw).classes.indexOf c, ?_, ?_⟩
    · simp [LabelIndex.class_to_idx, hc]
    · simp only [LabelIndex.idx_to_class]
      rw [List.get?_eq_getElem?]
      exact List.getElem?_eq_getElem (List.indexOf_lt_length.2 hc) ▸
        congrArg some (List.getElem_indexOf (List.indexOf_lt_length.2 hc))
  · intro i c hic
    simp only [LabelIndex.idx_to_class, List.get?_eq_getElem?] at hic
    have hlt : i < (LabelIndex.ofClassNames raw).classes.length := by
      by_contra h
      rw [List.getElem?_eq_none (Nat.le_of_not_lt h)] at hic
      exact Option.noConfusion hic
    have hget : (LabelIndex.ofClassNames raw).classes[i] = c := by
      rw [List.getElem?_eq_getElem hlt] at hic
      exact Option.some.inj hic
    have hmem : c ∈ (LabelIndex.ofClassNames raw).classes := by
      rw [← hget]; exact List.getElem_mem hlt
    simp only [LabelIndex.class_to_idx, if_pos hmem]
    rw [← hget]
    exact congrArg some (List.indexOf_getElem (LabelIndex.classes_nodup raw) i hlt)

/-- Witness for claim C1 at a concrete label index built from two class
names. -/
theorem labelIndex_roundTrip_bijection_witness :
    ∃ i, (LabelIndex.ofClassNames ["malignant", "benign"]).class_to_idx "benign" = some i ∧
      (LabelIndex.ofClassNames ["malignant", "benign"]).idx_to_class i = some "benign" :=
  (labelIndex_roundTrip_bijection ["malignant", "benign"]).1 "benign" (by decide)

/-- Error kinds of the dataset layer (spec section 7). -/
inductive DatasetError where
  | missingSplit
  | sampleLoad
deriving DecidableEq, Repr

/-- Modelled from the spec: the storage layout consumed by
`src/data/classification.py` (not among the reviewed sources).  A
classification root maps each split to the listing of its split directory —
a list of (class directory name, files inside it) — or to `none` when the
split directory is absent from storage. -/
structure ClassRoot where
  dirs : DataSplit → Option (List (String × List String))

/-- Modelled from the spec: the storage layout consumed by
`src/data/segmentation.py` (not among the reviewed sources).  A segmentation
root maps each split to its (image path, mask path) pairs, or to `none` when
the split directory is absent. -/
structure SegRoot where
  dirs : DataSplit → Option (List (String × String))

/-- Ordering of classification samples: lexicographic by file path, the
spec's stable ordering for the sample list. -/
def sampleLe (a b : String × Nat) : Prop := strLe a.1 b.1

instance : DecidableRel sampleLe := fun a b =>
  inferInstanceAs (Decidable (strLe a.1 b.1))

instance : IsTotal (String × Nat) sampleLe :=
  ⟨fun a b => charListLe_total a.1.data b.1.data⟩

instance : IsTrans (String × Nat) sampleLe :=
  ⟨fun a b c h1 h2 => charListLe_trans a.1.data b.1.data c.1.data h1 h2⟩

/-- Ordering of segmentation samples: lexicographic by image path. -/
def segSampleLe (a b : String × String) : Prop := strLe a.1 b.1

instance : DecidableRel segSampleLe := fun a b =>
  inferInstanceAs (Decidable (strLe a.1 b.1))

/-- Modelled from the spec: `TumorClassificationDataset` from
`src/data/classification.py` (not among the reviewed sources).  It owns the
ordered sample list — (file path, integer label) pairs — for one split and a
reference to the label index; the notebook reads both `data.samples` and
`data.idx_to_class`. -/
structure TumorClassificationDataset where
  samples : List (String × Nat)
  labelIndex : LabelIndex
deriving DecidableEq, Repr

/-- Modelled from the spec: construction of `TumorClassificationDataset` from
a root directory and a split.  An absent split directory fails immediately
with `MissingSplitError`; otherwise the label index is built from the class
directory names and the samples are enumerated in stable lexicographic
file-path order. -/
def TumorClassificationDataset.build (root : ClassRoot) (split : DataSplit) :
    Except DatasetError TumorClassificationDataset :=
  match root.dirs split with
  | none => .error .missingSplit
  | some classDirs =>
    let L := LabelIndex.ofClassNames (classDirs.map Prod.fst)
    let raw := (classDirs.map
      (fun cd => cd.2.map (fun f => (f, L.classes.indexOf cd.1)))).flatten
    .ok ⟨List.insertionSort sampleLe raw, L⟩

/-- The `data.idx_to_class[label]` lookup used by the reporting notebook. -/
def TumorClassificationDataset.idx_to_class (d : TumorClassificationDataset)
    (i : Nat) : Option String :=
  d.labelIndex.idx_to_class i

/-- Modelled from the spec: a segmentation dataset (`BoxSegmentationDataset` /
`LGGSegmentationDataset` from `src/data/segmentation.py`, not among the
reviewed sources) owns the ordered (image path, mask path) sample list of one
split. -/
structure SegmentationDataset where
  samples : List (String × String)
deriving DecidableEq, Repr

/-- Modelled from the spec: construction of a segmentation dataset; an absent
split directory fails immediately with `MissingSplitError`. -/
def SegmentationDataset.build (root : SegRoot) (split : DataSplit) :
    Except DatasetError SegmentationDataset :=
  match root.dirs split with
  | none => .error .missingSplit
  | some pairs => .ok ⟨List.insertionSort segSampleLe pairs⟩

/-- The split has at least one sample present in storage: its directory
exists and some class directory inside it is non-empty.  This is what the
spec calls a valid split. -/
def ClassRoot.hasSamples (root : ClassRoot) (split : DataSplit) : Prop :=
  ∃ ds, root.dirs split = some ds ∧ ∃ cd, cd ∈ ds ∧ cd.2 ≠ []

/-- Concrete classification root used by witnesses: 6 benign and 4 malignant
files under TRAIN, no VALIDATION directory, a small TEST directory. -/
def exampleClassRoot : ClassRoot :=
  ⟨fun s => match s with
    | .TRAIN => some
        [("benign", ["b1.png", "b2.png", "b3.png", "b4.png", "b5.png", "b6.png"]),
         ("malignant", ["m1.png", "m2.png", "m3.png", "m4.png"])]
    | .VALIDATION => none
    | .TEST => some [("benign", ["t1.png"]), ("malignant", ["t2.png"])]⟩

/-- Concrete segmentation root used by witnesses: one image/mask pair under
TRAIN and no other split. -/
def exampleSegRoot : SegRoot :=
  ⟨fun s => match s with
    | .TRAIN => some [("img1.png", "mask1.png")]
    | _ => none⟩

/-- Claim C2: constructing a dataset for a split whose directory is absent
from the root fails immediately with the missing-split error — for the
classification dataset and for a segmentation dataset alike — and in
particular never returns a dataset with an empty sample list. -/
theorem dataset_missingSplit_fails (croot : ClassRoot) (sroot : SegRoot)
    (split : DataSplit) (hc : croot.dirs split = none)
    (hs : sroot.dirs split = none) :
    TumorClassificationDataset.build croot split = .error .missingSplit ∧
    (∀ d, TumorClassificationDataset.build croot split ≠ .ok d) ∧
    SegmentationDataset.build sroot split = .error .missingSplit ∧
    (∀ d, SegmentationDataset.build sroot split ≠ .ok d) := by
  have h1 : TumorClassificationDataset.build croot split = .error .missingSplit := by
    simp [TumorClassificationDataset.build, hc]
  have h2 : SegmentationDataset.build sroot split = .error .missingSplit := by
    simp [SegmentationDataset.build, hs]
  exact ⟨h1, fun d hd => by rw [h1] at hd; exact Except.noConfusion hd,
    h2, fun d hd => by rw [h2] at hd; exact Except.noConfusion hd⟩

/-- Witness for claim C2: the example roots have no VALIDATION split, and
requesting VALIDATION fails with the missing-split error. -/
theorem dataset_missingSplit_fails_witness :
    exampleClassRoot.dirs .VALIDATION = none ∧
    exampleSegRoot.dirs .VALIDATION = none ∧
    TumorClassificationDataset.build exampleClassRoot .VALIDATION
      = .error .missingSplit ∧
    SegmentationDataset.build exampleSegRoot .VALIDATION
      = .error .missingSplit := by
  have h := dataset_missingSplit_fails exampleClassRoot exampleSegRoot
    .VALIDATION rfl rfl
  exact ⟨rfl, rfl, h.1, h.2.2.1⟩

/-- Claim C3: dataset construction is a pure function of (root, split), so
two calls with the same arguments return the same sample list in the same
order; the sample list is stably ordered (sorted lexicographically by file
path); and for a valid split — one present in storage with at least one file
— the sample list is non-empty. -/
theorem catalog_deterministic_sorted_nonempty (root : ClassRoot)
    (split : DataSplit) :
    TumorClassificationDataset.build root split
      = TumorClassificationDataset.build root split ∧
    (∀ d, TumorClassificationDataset.build root split = .ok d →
      d.samples.Sorted sampleLe) ∧
    (root.hasSamples split →
      ∃ d, TumorClassificationDataset.build root split = .ok d ∧
        d.samples ≠ []) := by
  refine ⟨rfl, ?_, ?_⟩
  · intro d hd
    cases hroot : root.dirs split with
    | none => simp [TumorClassificationDataset.build, hroot] at hd
    | some classDirs =>
      simp only [TumorClassificationDataset.build, hroot] at hd
      cases hd
      exact List.sorted_insertionSort sampleLe _
  · rintro ⟨ds, hds, cd, hcd, hne⟩
    obtain ⟨f, hf⟩ := List.exists_mem_of_ne_nil cd.2 hne
    set L := LabelIndex.ofClassNames (ds.map Prod.fst) with hL
    refine ⟨⟨List.insertionSort sampleLe
        ((ds.map (fun cd => cd.2.map (fun f => (f, L.classes.indexOf cd.1)))).flatten),
        L⟩, ?_, ?_⟩
    · simp [TumorClassificationDataset.build, hds]
    · have hmem : (f, L.classes.indexOf cd.1) ∈
          (ds.map (fun cd => cd.2.map (fun f => (f, L.classes.indexOf cd.1)))).flatten := by
        refine List.mem_flatten.2 ⟨cd.2.map (fun g => (g, L.classes.indexOf cd.1)), ?_, ?_⟩
        · exact List.mem_map_of_mem _ hcd
        · exact List.mem_map_of_mem _ hf
      have hsorted : (f, L.classes.indexOf cd.1) ∈ List.insertionSort sampleLe
          ((ds.map (fun cd => cd.2.map (fun f => (f, L.classes.indexOf cd.1)))).flatten) :=
        ((List.perm_insertionSort sampleLe _).mem_iff).2 hmem
      exact List.ne_nil_of_mem hsorted

/-- Witness for claim C3: the example root's TRAIN split is valid and yields
a non-empty sample list. -/
theorem catalog_deterministic_sorted_nonempty_witness :
    exampleClassRoot.hasSamples .TRAIN ∧
    ∃ d, TumorClassificationDataset.build exampleClassRoot .TRAIN = .ok d ∧
      d.samples ≠ [] := by
  have hs : exampleClassRoot.hasSamples .TRAIN :=
    ⟨_, rfl, ("benign", ["b1.png", "b2.png", "b3.png", "b4.png", "b5.png", "b6.png"]),
      by decide, by decide⟩
  exact ⟨hs, (catalog_deterministic_sorted_nonempty exampleClassRoot .TRAIN).2.2 hs⟩

/-- Spatial dimensions (height, width) of an image or mask. -/
structure Dims where
  height : Nat
  width : Nat
deriving DecidableEq, Repr

/-- An image: channel count, spatial dimensions and an abstract pixel
payload. -/
structure Image where
  channels : Nat
  dims : Dims
  pixels : List ℚ
deriving DecidableEq, Repr

/-- A segmentation mask: spatial dimensions and an abstract pixel payload. -/
structure Mask where
  dims : Dims
  pixels : List ℚ
deriving DecidableEq, Repr

/-- Error kind of the transform pipeline (spec section 7). -/
inductive TransformError where
  | dimensionMismatch
deriving DecidableEq, Repr

/-- A paired transform: takes an (image, mask) pair and either produces a
transformed pair or fails. -/
abbrev DualTransform := Image × Mask → Except TransformError (Image × Mask)

/-- Modelled from the spec: `DualInputCompose` from `src/utils/transforms.py`
(not among the reviewed sources).  Applies an ordered list of paired
transforms left to right to an (image, mask) pair, stopping at the first
failure. -/
def DualInputCompose : List DualTransform → Image × Mask →
    Except TransformError (Image × Mask)
  | [], p => .ok p
  | t :: ts, p =>
    match t p with
    | .error e => .error e
    | .ok q => DualInputCompose ts q

/-- Modelled from the spec: `DualInputResize` from `src/utils/transforms.py`
(not among the reviewed sources).  A geometric transform that resizes image
and mask identically and synchronously to the target size; pixel resampling
is abstracted away. -/
def DualInputResize (size : Dims) : DualTransform := fun p =>
  .ok ({ p.1 with dims := size }, { p.2 with dims := size })

/-- Modelled from the spec: `DualInputTransform` from
`src/utils/transforms.py` (not among the reviewed sources).  Wraps a
value-only, size-preserving single-input transform and applies it
independently to image and mask; per the spec it fails with
`DimensionMismatchError` when the image and mask dimensions disagree at the
point where it is applied. -/
def DualInputTransform (f : List ℚ → List ℚ) : DualTransform := fun p =>
  if p.1.dims = p.2.dims then
    .ok ({ p.1 with pixels := f p.1.pixels }, { p.2 with pixels := f p.2.pixels })
  else .error .dimensionMismatch

/-- Modelled from the spec: `transforms.ToTensor` as used by the notebook — a
value-only conversion that rescales pixel values to [0, 1] and leaves the
spatial dimensions unchanged. -/
def ToTensor : List ℚ → List ℚ := fun px => px.map (fun v => v / 255)

/-- Modelled from the spec: a general geometric transform applies one and the
same spatial map identically and synchronously to image and mask (spec
section 4.3). -/
def DualInputGeometric (g : Dims → Dims) : DualTransform := fun p =>
  .ok ({ p.1 with dims := g p.1.dims }, { p.2 with dims := g p.2.dims })

theorem DualInputCompose_append (ts us : List DualTransform) (p : Image × Mask) :
    DualInputCompose (ts ++ us) p =
      match DualInputCompose ts p with
      | .error e => .error e
      | .ok q => DualInputCompose us q := by
  induction ts generalizing p with
  | nil => rfl
  | cons t ts ih =>
    simp only [List.cons_append, DualInputCompose]
    cases t p with
    | error e => rfl
    | ok q => exact ih q

/-- Claim C5: the pipeline built from the empty list of transforms returns
the input pair unchanged — the empty composition is the identity. -/
theorem DualInputCompose_nil_id (p : Image × Mask) :
    DualInputCompose [] p = .ok p := rfl

/-- Claim C6: for all paired transforms A, B, C, running the composed
pipeline [A, B] and feeding its result to C gives the same outcome as
running the single composed pipeline [A, B, C] — composition is associative
in effect. -/
theorem DualInputCompose_assoc (A B C : DualTransform) (p : Image × Mask) :
    (DualInputCompose [A, B] p).bind (DualInputCompose [C])
      = DualInputCompose [A, B, C] p := by
  rw [show ([A, B, C] : List DualTransform) = [A, B] ++ [C] from rfl,
    DualInputCompose_append]
  cases DualInputCompose [A, B] p <;> rfl

/-- Claim C4: composing `DualInputResize (320, 320)` with
`DualInputTransform ToTensor` yields an image with the input's channel count
and spatial size 320×320, and a mask whose spatial dimensions equal the
image's; and in general any geometric transform leaves image and mask with
identical spatial dimensions (given they agreed before it). -/
theorem resize_toTensor_shape :
    (∀ p : Image × Mask, ∃ img msk,
      DualInputCompose [DualInputResize ⟨320, 320⟩, DualInputTransform ToTensor] p
        = .ok (img, msk) ∧
      img.channels = p.1.channels ∧ img.dims = ⟨320, 320⟩ ∧ msk.dims = img.dims) ∧
    (∀ (g : Dims → Dims) (p : Image × Mask) (img : Image) (msk : Mask),
      p.1.dims = p.2.dims → DualInputGeometric g p = .ok (img, msk) →
      img.dims = msk.dims) := by
  constructor
  · intro p
    refine ⟨{ p.1 with dims := ⟨320, 320⟩, pixels := ToTensor p.1.pixels },
      { p.2 with dims := ⟨320, 320⟩, pixels := ToTensor p.2.pixels }, ?_, rfl, rfl, rfl⟩
    simp [DualInputCompose, DualInputResize, DualInputTransform]
  · intro g p img msk heq hok
    have h := Except.ok.inj hok
    have h1 : img = { p.1 with dims := g p.1.dims } := (congrArg Prod.fst h).symm
    have h2 : msk = { p.2 with dims := g p.2.dims } := (congrArg Prod.snd h).symm
    subst h1; subst h2
    show g p.1.dims = g p.2.dims
    rw [heq]

/-- Concrete (image, mask) pair with agreeing dimensions, used by
witnesses. -/
def examplePair : Image × Mask := (⟨3, ⟨100, 200⟩, [255]⟩, ⟨⟨100, 200⟩, [0]⟩)

/-- A concrete geometric transform: halve both spatial dimensions. -/
def halveDims : Dims → Dims := fun d => ⟨d.height / 2, d.width / 2⟩

/-- Witness for claim C4 at a concrete pair and a concrete geometric
transform. -/
theorem resize_toTensor_shape_witness :
    (∃ img msk,
      DualInputCompose [DualInputResize ⟨320, 320⟩, DualInputTransform ToTensor]
        examplePair = .ok (img, msk) ∧
      img.channels = examplePair.1.channels ∧ img.dims = ⟨320, 320⟩ ∧
      msk.dims = img.dims) ∧
    (examplePair.1.dims = examplePair.2.dims ∧
      DualInputGeometric halveDims examplePair
        = .ok (⟨3, ⟨50, 100⟩, [255]⟩, ⟨⟨50, 100⟩, [0]⟩) ∧
      (⟨3, ⟨50, 100⟩, [255]⟩ : Image).dims = (⟨⟨50, 100⟩, [0]⟩ : Mask).dims) :=
  ⟨resize_toTensor_shape.1 examplePair,
    rfl, rfl,
    resize_toTensor_shape.2 halveDims examplePair ⟨3, ⟨50, 100⟩, [255]⟩
      ⟨⟨50, 100⟩, [0]⟩ rfl rfl⟩

/-- Claim C7: if, at the point where a size-preserving transform in the
pipeline is applied, the image and mask spatial dimensions disagree, the
whole pipeline fails with `DimensionMismatchError` instead of producing an
output pair. -/
theorem pipeline_dimensionMismatch (pre post : List DualTransform)
    (f : List ℚ → List ℚ) (p q : Image × Mask)
    (hpre : DualInputCompose pre p = .ok q)
    (hne : q.1.dims ≠ q.2.dims) :
    DualInputCompose (pre ++ DualInputTransform f :: post) p
      = .error .dimensionMismatch := by
  rw [DualInputCompose_append, hpre]
  show DualInputCompose (DualInputTransform f :: post) q = _
  simp only [DualInputCompose, DualInputTransform, if_neg hne]

/-- Concrete (image, mask) pair with disagreeing dimensions, used by the C7
witness. -/
def exampleMismatchedPair : Image × Mask := (⟨3, ⟨100, 200⟩, [255]⟩, ⟨⟨64, 64⟩, [0]⟩)

/-- Witness for claim C7: the empty prefix reaches the size-preserving
transform with mismatched dimensions and the pipeline fails. -/
theorem pipeline_dimensionMismatch_witness :
    DualInputCompose [] exampleMismatchedPair = .ok exampleMismatchedPair ∧
    exampleMismatchedPair.1.dims ≠ exampleMismatchedPair.2.dims ∧
    DualInputCompose ([] ++ DualInputTransform ToTensor :: [])
      exampleMismatchedPair = .error .dimensionMismatch :=
  ⟨rfl, by decide,
    pipeline_dimensionMismatch [] [] ToTensor exampleMismatchedPair
      exampleMismatchedPair rfl (by decide)⟩

/-- `labels = np.array([data.idx_to_class[label] for label in labels])` in the
reporting notebook: the class-name string of each sample's label id. -/
def labelStrings (d : TumorClassificationDataset) : List String :=
  d.samples.map (fun s => (d.idx_to_class s.2).getD "")

/-- `df['label'].value_counts()` followed by `label_counts.sort_index()` in
the reporting notebook: occurrence counts of each label name, rows sorted by
label name. -/
def valueCounts (labels : List String) : List (String × Nat) :=
  (List.insertionSort strLe labels.dedup).map (fun c => (c, labels.count c))

/-- The reporting loop of the notebook (`for split in DataSplit: if split ==
DataSplit.VALIDATION: continue ...`): walk the enum members in order, skip
VALIDATION, and collect `(split, label_counts)` for each remaining split.
Parametrised over the datasets the loop constructs. -/
def reportLoop (datasetOf : DataSplit → TumorClassificationDataset) :
    List DataSplit → List (DataSplit × List (String × Nat))
  | [] => []
  | s :: rest =>
    if s = DataSplit.VALIDATION then reportLoop datasetOf rest
    else (s, valueCounts (labelStrings (datasetOf s))) :: reportLoop datasetOf rest

/-- `df.columns = [split.name for split in DataSplit if split !=
DataSplit.VALIDATION]` in the reporting notebook. -/
def reportColumns : List String :=
  (DataSplit.all.filter (fun s => s ≠ DataSplit.VALIDATION)).map DataSplit.name

/-- Claim C8: the reporting notebook processes every member of the DataSplit
enumeration except VALIDATION — no dataset is constructed for VALIDATION —
and the columns of the combined count table are exactly the names of the
non-VALIDATION splits in enumeration order. -/
theorem report_skips_validation
    (datasetOf : DataSplit → TumorClassificationDataset) :
    (reportLoop datasetOf DataSplit.all).map Prod.fst
      = DataSplit.all.filter (fun s => s ≠ DataSplit.VALIDATION) ∧
    DataSplit.VALIDATION ∉ (reportLoop datasetOf DataSplit.all).map Prod.fst ∧
    reportColumns
      = ((reportLoop datasetOf DataSplit.all).map Prod.fst).map DataSplit.name := by
  refine ⟨rfl, ?_, rfl⟩
  show DataSplit.VALIDATION ∉ [DataSplit.TRAIN, DataSplit.TEST]
  decide

/-- `df.sum(axis=0)` for one split's count column. -/
def colTotal (counts : List (String × Nat)) : Nat := (counts.map Prod.snd).sum

/-- The `f'{x:.2%}'` formatting of the notebook: the value times 100 rendered
with two decimal places and a percent sign. -/
def formatPercent (q : ℚ) : String :=
  let d : ℤ := (q.num * 20000 + (q.den : ℤ)) / (2 * (q.den : ℤ))
  let whole := d / 100
  let frac := (d % 100).toNat
  toString whole ++ "." ++ (if frac < 10 then "0" else "") ++ toString frac ++ "%"

/-- Lines `df_dist = df.div(df.sum(axis=0), axis=1)` and `distribution =
df_dist.map(lambda x: f'{x:.2%}')` of the notebook: each count divided by its
column's sum (the exact rational `mkRat count total`), formatted as a
percentage. -/
def distColumn (counts : List (String × Nat)) : List (String × String) :=
  counts.map (fun cn => (cn.1, formatPercent (mkRat cn.2 (colTotal counts))))

/-- Claim C9: for a classification root whose TRAIN split holds 6 "benign"
and 4 "malignant" samples, the reporting computes label counts benign = 6,
malignant = 4 and the normalized distribution 60.00% / 40.00%; and in
general the distribution column is the count column divided by that column's
sum, formatted with two decimal places and a percent sign. -/
theorem distribution_example :
    (∃ d, TumorClassificationDataset.build exampleClassRoot .TRAIN = .ok d ∧
      valueCounts (labelStrings d) = [("benign", 6), ("malignant", 4)] ∧
      distColumn (valueCounts (labelStrings d))
        = [("benign", "60.00%"), ("malignant", "40.00%")]) ∧
    (∀ counts, distColumn counts
      = counts.map (fun cn =>
          (cn.1, formatPercent (mkRat cn.2 (colTotal counts))))) := by
  refine ⟨⟨_, rfl, ?_, ?_⟩, fun counts => rfl⟩
  · decide
  · decide

/-- Row index of the combined table: `pd.concat(..., axis=1)` outer-joins
the per-split row indexes, so a class name appearing in any reported split
gets a row. -/
def tableClasses (report : List (DataSplit × List (String × Nat))) : List String :=
  ((report.map (fun sc => sc.2.map Prod.fst)).flatten).dedup

/-- One cell of the combined table after `df.fillna(0)` and
`df.astype(int)`: the split's count for the class, and the integer 0 when
the class is absent from that split's counts. -/
def tableCell (counts : List (String × Nat)) (c : String) : Nat :=
  match counts.lookup c with
  | some n => n
  | none => 0

theorem mem_keys_of_lookup_eq_some :
    ∀ (l : List (String × Nat)) (c : String) (n : Nat),
      l.lookup c = some n → c ∈ l.map Prod.fst
  | [], _, _, h => by simp [List.lookup] at h
  | (k, v) :: es, c, n, h => by
    by_cases hck : c = k
    · simp [hck]
    · have hrest : es.lookup c = some n := by
        simpa [List.lookup, beq_eq_false_iff_ne.2 hck] using h
      simp [mem_keys_of_lookup_eq_some es c n hrest]

/-- Claim C10: in the combined per-split count table, a class name occurring
in one reported split still gets a row, and in any split whose counts lack
that class the cell holds the integer value 0 (missing entries are filled
with 0); cells are natural numbers, hence non-negative integers. -/
theorem table_fillna_zero (report : List (DataSplit × List (String × Nat)))
    (s t : DataSplit) (cs ct : List (String × Nat)) (c : String)
    (hs : (s, cs) ∈ report) (ht : (t, ct) ∈ report)
    (hin : c ∈ cs.map Prod.fst) (hout : c ∉ ct.map Prod.fst) :
    c ∈ tableClasses report ∧ tableCell ct c = 0 := by
  constructor
  · exact List.mem_dedup.2 (List.mem_flatten.2
      ⟨cs.map Prod.fst, List.mem_map_of_mem _ hs, hin⟩)
  · cases hl : ct.lookup c with
    | none => simp [tableCell, hl]
    | some n => exact absurd (mem_keys_of_lookup_eq_some ct c n hl) hout

/-- Concrete combined report used by the C10 witness: "malignant" occurs
under TRAIN but not under TEST. -/
def exampleReport : List (DataSplit × List (String × Nat)) :=
  [(.TRAIN, [("benign", 6), ("malignant", 4)]), (.TEST, [("benign", 1)])]

/-- Witness for claim C10: in the example report, "malignant" has a row and
its TEST cell is filled with 0. -/
theorem table_fillna_zero_witness :
    (DataSplit.TRAIN, [("benign", 6), ("malignant", 4)]) ∈ exampleReport ∧
    (DataSplit.TEST, [("benign", 1)]) ∈ exampleReport ∧
    "malignant" ∈ [("benign", 6), ("malignant", 4)].map
      (Prod.fst (α := String) (β := Nat)) ∧
    "malignant" ∉ [("benign", 1)].map (Prod.fst (α := String) (β := Nat)) ∧
    ("malignant" ∈ tableClasses exampleReport ∧
      tableCell [("benign", 1)] "malignant" = 0) :=
  ⟨by decide, by decide, by decide, by decide,
    table_fillna_zero exampleReport .TRAIN .TEST
      [("benign", 6), ("malignant", 4)] [("benign", 1)] "malignant"
      (by decide) (by decide) (by decide) (by decide)⟩
